/-
Verification of the invitation-rendering pipeline (make_invite.py and its
environment-only twin).  The Python drawing calls are shallowly embedded as a
trace of drawing operations (`DrawOp`); PIL fonts become a `Font` record of
the three capabilities the code uses (`size`, `getmask`, `textbbox`);
`os.getenv` becomes a function `String → Option String`; JSON documents
become an association list of `JValue`s; exceptions become `Except PyErr`.

Numeric conventions, mirroring Python:
  * `x // y`  (floor division)           ↦ `Int.fdiv`
  * `int(x)`  on a float (truncation)    ↦ `Int.tdiv` (trunc toward zero),
    applied to the exact rational value: `int(h * 0.55)` ↦ `Int.tdiv (h*55) 100`,
    `round(8.27*dpi)` ↦ half-to-even rounding of `827*dpi/100`.  The binary
    floating point literals 8.27 / 11.69 / 0.55 are modelled by their decimal
    values exactly; the claims under study do not depend on the final ulp.
  * `str.strip()` / `str.strip("\n")` ↦ dropping the given characters from
    both ends; Python's whitespace set is ' \t\n\r\v\f'.
  * `str.split("\n")` ↦ `pySplit '\n'` (keeps empty segments, `"" ↦ [""]`).
  * `int(s)` on a string ↦ `py_int_parse` (`none` models `ValueError`):
    optional surrounding whitespace, optional sign, decimal digits with
    single underscores allowed between digits.
-/
import Mathlib

namespace Invite

/-! ### Python string primitives -/

/-- Python's `str` whitespace set (ASCII): space, \t, \n, \r, \v, \f. -/
def pyIsSpace (c : Char) : Bool :=
  c = ' ' || c = '\t' || c = '\n' || c = '\r' || c = Char.ofNat 11 || c = Char.ofNat 12

/-- `s.strip(chars)`: drop characters satisfying `p` from both ends. -/
def pyStripChars (p : Char → Bool) (s : String) : String :=
  String.mk (((s.data.dropWhile p).reverse.dropWhile p).reverse)

/-- `s.strip()` (whitespace). -/
def pyStripWs (s : String) : String := pyStripChars pyIsSpace s

/-- `s.strip("\n")`. -/
def pyStripNl (s : String) : String := pyStripChars (· = '\n') s

/-- `not line.strip()`: the line is empty or all-whitespace. -/
def pyIsBlank (s : String) : Bool := s.data.all pyIsSpace

/-- Auxiliary for `split`: first segment before the separator, and the
remaining segments. -/
def splitChAux (c : Char) : List Char → List Char × List (List Char)
  | [] => ([], [])
  | x :: xs =>
    let r := splitChAux c xs
    if x = c then ([], r.1 :: r.2) else (x :: r.1, r.2)

/-- Python `s.split(c)` for a one-character separator: keeps empty segments,
and `"".split(c) = [""]`. -/
def pySplit (c : Char) (s : String) : List String :=
  let r := splitChAux c s.data
  (r.1 :: r.2).map String.mk

/-- Digit run of Python's `int(str)` after the first digit: digits, with
single underscores allowed between digits. -/
def parseDigitsGo (acc : Nat) : List Char → Option Nat
  | [] => some acc
  | '_' :: rest =>
    match rest with
    | [] => none
    | c :: cs => if c.isDigit then parseDigitsGo (acc * 10 + (c.toNat - 48)) cs else none
  | c :: cs => if c.isDigit then parseDigitsGo (acc * 10 + (c.toNat - 48)) cs else none

/-- Digit run of Python's `int(str)`: must start with a digit. -/
def parseDigits : List Char → Option Nat
  | [] => none
  | c :: cs => if c.isDigit then parseDigitsGo (c.toNat - 48) cs else none

/-- Python `int(s)` for a decimal string; `none` models `ValueError`. -/
def py_int_parse (s : String) : Option Int :=
  match (pyStripWs s).data with
  | '+' :: rest => (parseDigits rest).map (fun n => (n : Int))
  | '-' :: rest => (parseDigits rest).map (fun n => -(n : Int))
  | t => (parseDigits t).map (fun n => (n : Int))

/-! ### Fonts, colors, drawing operations -/

/-- RGBA color. -/
abbrev Color := Int × Int × Int × Int

/-- Text bounding box as returned by `draw.textbbox((0,0), text, font)`. -/
structure BBox where
  x0 : Int
  y0 : Int
  x1 : Int
  y1 : Int
deriving DecidableEq, Repr

/-- The capabilities of a PIL font that the code uses: the nominal `size`
attribute, `getmask` (`none` models the probe raising an exception,
`some (w, h)` the mask size), and `textbbox` measurement of a string. -/
structure Font where
  size : Int
  getmask : String → Option (Int × Int)
  bbox : String → BBox

/-- Width of a measured string: `bbox[2] - bbox[0]`. -/
def bboxW (f : Font) (s : String) : Int := (f.bbox s).x1 - (f.bbox s).x0

/-- Height of a measured string: `bbox[3] - bbox[1]`. -/
def bboxH (f : Font) (s : String) : Int := (f.bbox s).y1 - (f.bbox s).y0

/-- One PIL drawing call on the canvas: `draw.line` or `draw.text`. -/
inductive DrawOp where
  | line (p1 p2 : Int × Int) (fill : Color) (width : Int)
  | text (pos : Int × Int) (s : String) (fill : Color)
deriving DecidableEq, Repr

/-- Is the op a `draw.line` call? -/
def DrawOp.isLine : DrawOp → Bool
  | .line _ _ _ _ => true
  | .text _ _ _ => false

/-- Strings drawn by `draw.text` calls, in order. -/
def textStrings (ops : List DrawOp) : List String :=
  ops.filterMap fun op => match op with
    | .text _ s _ => some s
    | _ => none

/-- Each divider rule is rendered as two `draw.line` segments; the number of
rules in a trace is the number of line segments halved. -/
def ruleCount (ops : List DrawOp) : Nat := (ops.filter DrawOp.isLine).length / 2

/-! ### draw_centered_multiline -/

/-- Cursor advance of one line in `draw_centered_multiline`: a blank line
advances by `font.size + line_spacing_px`, a drawn line by its bbox height
plus `line_spacing_px`. -/
def lineAdvance (font : Font) (line_spacing_px : Int) (line : String) : Int :=
  if pyIsBlank line then font.size + line_spacing_px else bboxH font line + line_spacing_px

/-- The loop body of `draw_centered_multiline` over the split lines. -/
def drawLines (font : Font) (center_x : Int) (fill : Color) (line_spacing_px : Int) :
    List String → Int → List DrawOp × Int
  | [], y => ([], y)
  | line :: rest, y =>
    if pyIsBlank line then
      drawLines font center_x fill line_spacing_px rest (y + (font.size + line_spacing_px))
    else
      let w := bboxW font line
      let h := bboxH font line
      let r := drawLines font center_x fill line_spacing_px rest (y + (h + line_spacing_px))
      (DrawOp.text (center_x - Int.fdiv w 2, y) line fill :: r.1, r.2)

/-- `draw_centered_multiline`: splits on `"\n"`, draws each non-blank line
centered, advances the cursor for every line, returns (trace, final y). -/
def draw_centered_multiline (font : Font) (center_x top_y : Int) (fill : Color)
    (line_spacing_px : Int) (text : String) : List DrawOp × Int :=
  drawLines font center_x fill line_spacing_px (pySplit '\n' text) top_y

/-! ### draw_hook_divider and draw_divider_pair -/

/-- `draw_hook_divider`: two line segments around a central gap, then the
ornament glyph (falling back to `"•"` when the font cannot rasterize the
requested one, or when the probe raises), drawn nudged up by
`int(h * 0.55)` pixels.  The `hook_font is None` branch of the source never
fires in this program (both callers pass a loaded font), so the font is a
required argument here. -/
def draw_hook_divider (center_x y width : Int) (color : Color) (thickness : Int)
    (hook_char : String) (hook_font : Font) (hook_gap : Int) : List DrawOp :=
  let half := Int.fdiv width 2
  let seg1 := DrawOp.line (center_x - half, y) (center_x - hook_gap, y) color thickness
  let seg2 := DrawOp.line (center_x + hook_gap, y) (center_x + half, y) color thickness
  let hc :=
    match hook_font.getmask hook_char with
    | none => "•"
    | some m => if m = (0, 0) then "•" else hook_char
  let w := bboxW hook_font hc
  let h := bboxH hook_font hc
  [seg1, seg2, DrawOp.text (center_x - Int.fdiv w 2, y - Int.tdiv (h * 55) 100) hc color]

/-- `draw_divider_pair`: draws a hook divider at `line_1_y` when present, and
independently one at `line_2_y` when present. -/
def draw_divider_pair (center_x width : Int) (color : Color) (thickness : Int)
    (hook_char : String) (hook_font : Font) (hook_gap : Int)
    (line_1_y line_2_y : Option Int) : List DrawOp :=
  (match line_1_y with
   | some y => draw_hook_divider center_x y width color thickness hook_char hook_font hook_gap
   | none => []) ++
  (match line_2_y with
   | some y => draw_hook_divider center_x y width color thickness hook_char hook_font hook_gap
   | none => [])

/-! ### Canvas preparation (ensure_a4) -/

/-- Python `round` on an exact rational `num / den` (`den > 0`): round half
to even (banker's rounding). -/
def roundHalfEven (num den : Int) : Int :=
  let q := Int.fdiv num den
  let r := num - q * den
  if 2 * r < den then q
  else if den < 2 * r then q + 1
  else if q % 2 = 0 then q else q + 1

/-- Target A4 pixel dimensions: `round(8.27*dpi), round(11.69*dpi)`. -/
def a4_target (dpi : Int) : Int × Int :=
  (roundHalfEven (827 * dpi) 100, roundHalfEven (1169 * dpi) 100)

/-- A PIL image, abstracted to its provenance and pixel dimensions.  A
`resized` image records the LANCZOS resample of its original. -/
inductive Image where
  | loaded (size : Int × Int)
  | resized (orig : Image) (newSize : Int × Int)
deriving DecidableEq, Repr

/-- `img.size`. -/
def Image.size : Image → Int × Int
  | .loaded s => s
  | .resized _ s => s

/-- `img.resize(sz, Image.Resampling.LANCZOS)`. -/
def Image.resize (img : Image) (sz : Int × Int) : Image := .resized img sz

/-- `ensure_a4`: resample to the A4 target exactly when the current size
differs from it. -/
def ensure_a4 (img : Image) (dpi : Int) : Image :=
  let target := a4_target dpi
  if img.size ≠ target then img.resize target else img

/-! ### JSON documents and field access -/

/-- A parsed JSON value. -/
inductive JValue where
  | str (s : String)
  | num (n : Int)
  | bool (b : Bool)
  | null
  | arr (xs : List JValue)
  | obj (kvs : List (String × JValue))

/-- `isinstance(v, str)`. -/
def JValue.isString : JValue → Bool
  | .str _ => true
  | _ => false

/-- A Python exception kind; raising is modelled with `Except PyErr`. -/
inductive PyErr where
  | keyError
  | typeError
  | valueError
  | ioError
deriving DecidableEq, Repr

deriving instance DecidableEq for Except

/-- A JSON object as the association list of its keys; `d.get key` is the
first binding. -/
abbrev JDict := List (String × JValue)

/-- `d.get(key)` / `key in d`. -/
def JDict.get (d : JDict) (key : String) : Option JValue :=
  match d.find? (fun kv => kv.1 = key) with
  | some kv => some kv.2
  | none => none

/-- `get_required`: `KeyError` when absent, `""` for `None`, `TypeError`
for any other non-string, the string itself otherwise. -/
def get_required (d : JDict) (key : String) : Except PyErr String :=
  match d.get key with
  | none => .error .keyError
  | some .null => .ok ""
  | some (.str s) => .ok s
  | some _ => .error .typeError

/-- `get_optional`: the default when absent (`d.get(key, default)` yields the
default string, which passes the `isinstance` check), `""` for `None`,
`TypeError` for any other non-string, the string itself otherwise. -/
def get_optional (d : JDict) (key : String) (default : String := "") : Except PyErr String :=
  match d.get key with
  | none => .ok default
  | some .null => .ok ""
  | some (.str s) => .ok s
  | some _ => .error .typeError

/-! ### Environment configuration helpers -/

/-- `os.getenv`. -/
abbrev Env := String → Option String

/-- `env_int`: `int(v) if v and v.strip() else default`; a set, non-blank,
non-numeric value raises `ValueError`. -/
def env_int (env : Env) (key : String) (default : Int) : Except PyErr Int :=
  match env key with
  | none => .ok default
  | some v =>
    if v = "" ∨ pyStripWs v = "" then .ok default
    else
      match py_int_parse v with
      | some n => .ok n
      | none => .error .valueError

/-- `env_int_opt`: `None` when the key is missing or its value blank, the
parsed integer otherwise (`ValueError` for a non-numeric value). -/
def env_int_opt (env : Env) (key : String) : Except PyErr (Option Int) :=
  match env key with
  | none => .ok none
  | some v =>
    let v := pyStripWs v
    if v = "" then .ok none
    else
      match py_int_parse v with
      | some n => .ok (some n)
      | none => .error .valueError

/-- `env_str`. -/
def env_str (env : Env) (key : String) (default : String := "") : String :=
  (env key).getD default

/-- `env_color`: split on `","`, strip each part, parse the first three as
integers (`r, g, b = map(int, parts[:3])` raises `ValueError` when fewer
than three parts exist or one of the first three is not an integer), fixed
alpha 255.  Parts beyond the third are ignored. -/
def env_color (env : Env) (key : String) (default : String := "180,180,180") :
    Except PyErr Color :=
  let raw := (env key).getD default
  let parts := (pySplit ',' raw).map pyStripWs
  match parts.take 3 with
  | [a, b, c] =>
    match py_int_parse a, py_int_parse b, py_int_parse c with
    | some r, some g, some bl => .ok (r, g, bl, 255)
    | _, _, _ => .error .valueError
  | _ => .error .valueError

/-! ### Composition driver -/

/-- Fixed text color of the driver. -/
def TEXT_COLOR : Color := (45, 45, 45, 255)

/-- Layout and style configuration as resolved by the driver (positions,
divider styles, fonts); shared shape between the two entry points. -/
structure Cfg where
  cx : Int
  yIntro : Int
  yTitle : Int
  yDetails : Int
  yMessage : Int
  ySign : Int
  yRsvp : Int
  lineWidth : Int
  lineThickness : Int
  lineColor : Color
  hookGap : Int
  hookChar : String
  detailsY1 : Option Int
  detailsY2 : Option Int
  messageY1 : Option Int
  messageY2 : Option Int
  smallWidth : Int
  smallY1 : Option Int
  smallY2 : Option Int
  smallThickness : Int
  smallColor : Color
  smallHookGap : Int
  smallHookChar : String
  fontTitle : Font
  fontBody : Font
  fontSmall : Font
  fontHook : Font
  fontRsvp : Font

/-- The six resolved content strings of an invitation. -/
structure Content where
  intro : String
  title : String
  details : String
  message : String
  sign : String
  rsvp : String

/-- JSON variant: `TITLE_LINE_1 + "\n" + TITLE_LINE_2`, stripped of leading
and trailing newlines. -/
def title_json (t1 t2 : String) : String := pyStripNl (t1 ++ "\n" ++ t2)

/-- JSON variant: the three detail lines joined with newlines
(`"\n".join([...])`), stripped of leading and trailing newlines. -/
def details_json (d1 d2 d3 : String) : String :=
  pyStripNl (d1 ++ "\n" ++ d2 ++ "\n" ++ d3)

/-- JSON variant: `MESSAGE_LINE_1 + "\n" + MESSAGE_LINE_2`, stripped. -/
def message_json (m1 m2 : String) : String := pyStripNl (m1 ++ "\n" ++ m2)

/-- JSON variant: `SIGN_LINE_1 + "\n" + SIGN_LINE_2`, stripped. -/
def sign_json (s1 s2 : String) : String := pyStripNl (s1 ++ "\n" ++ s2)

/-- Resolve the six content strings from the invitation JSON document
(every field goes through `get_optional` with default `""`). -/
def json_content (inv : JDict) : Except PyErr Content := do
  let intro ← get_optional inv "INTRO_TEXT" ""
  let t1 ← get_optional inv "TITLE_LINE_1" ""
  let t2 ← get_optional inv "TITLE_LINE_2" ""
  let d1 ← get_optional inv "DETAIL_LINE_1" ""
  let d2 ← get_optional inv "DETAIL_LINE_2" ""
  let d3 ← get_optional inv "DETAIL_LINE_3" ""
  let m1 ← get_optional inv "MESSAGE_LINE_1" ""
  let m2 ← get_optional inv "MESSAGE_LINE_2" ""
  let s1 ← get_optional inv "SIGN_LINE_1" ""
  let s2 ← get_optional inv "SIGN_LINE_2" ""
  let rsvp ← get_optional inv "RSVP_TEXT" ""
  return { intro := intro, title := title_json t1 t2, details := details_json d1 d2 d3,
           message := message_json m1 m2, sign := sign_json s1 s2, rsvp := rsvp }

/-- Environment-only variant: content straight from the environment, the
multi-line blocks joined with `"\n"` and NOT stripped. -/
def env_content (env : Env) : Content :=
  { intro := env_str env "INTRO_TEXT" ""
    title := env_str env "TITLE_LINE_1" "" ++ "\n" ++ env_str env "TITLE_LINE_2" ""
    details := env_str env "DETAIL_LINE_1" "" ++ "\n" ++ env_str env "DETAIL_LINE_2" ""
      ++ "\n" ++ env_str env "DETAIL_LINE_3" ""
    message := env_str env "MESSAGE_LINE_1" "" ++ "\n" ++ env_str env "MESSAGE_LINE_2" ""
    sign := env_str env "SIGN_LINE_1" "" ++ "\n" ++ env_str env "SIGN_LINE_2" ""
    rsvp := env_str env "RSVP_TEXT" "" }

/-- JSON variant intro step: guarded by `if INTRO:`. -/
def intro_step_json (cfg : Cfg) (c : Content) : List DrawOp :=
  if c.intro = "" then [] else
    (draw_centered_multiline cfg.fontSmall (cfg.cx + 50) cfg.yIntro TEXT_COLOR 10 c.intro).1

/-- JSON variant title step: guarded by `if TITLE:`. -/
def title_step_json (cfg : Cfg) (c : Content) : List DrawOp :=
  if c.title = "" then [] else
    (draw_centered_multiline cfg.fontTitle (cfg.cx + 50) cfg.yTitle TEXT_COLOR 6 c.title).1

/-- JSON variant details step: guarded by `if DETAILS:`. -/
def details_step_json (cfg : Cfg) (c : Content) : List DrawOp :=
  if c.details = "" then [] else
    (draw_centered_multiline cfg.fontBody (cfg.cx + 50) cfg.yDetails TEXT_COLOR 14 c.details).1

/-- JSON variant message step: guarded by `if MESSAGE:`. -/
def message_step_json (cfg : Cfg) (c : Content) : List DrawOp :=
  if c.message = "" then [] else
    (draw_centered_multiline cfg.fontSmall (cfg.cx + 50) cfg.yMessage TEXT_COLOR 14 c.message).1

/-- JSON variant signature step: guarded by `if SIGN:`. -/
def sign_step_json (cfg : Cfg) (c : Content) : List DrawOp :=
  if c.sign = "" then [] else
    (draw_centered_multiline cfg.fontBody (cfg.cx + 50) cfg.ySign TEXT_COLOR 12 c.sign).1

/-- JSON variant RSVP step: guarded by `if RSVP:`. -/
def rsvp_step_json (cfg : Cfg) (c : Content) : List DrawOp :=
  if c.rsvp = "" then [] else
    (draw_centered_multiline cfg.fontRsvp (cfg.cx + 50) cfg.yRsvp TEXT_COLOR 10 c.rsvp).1

/-- Environment-only variant intro step: always executes. -/
def intro_step_env (cfg : Cfg) (c : Content) : List DrawOp :=
  (draw_centered_multiline cfg.fontSmall (cfg.cx + 50) cfg.yIntro TEXT_COLOR 10 c.intro).1

/-- Environment-only variant title step: always executes. -/
def title_step_env (cfg : Cfg) (c : Content) : List DrawOp :=
  (draw_centered_multiline cfg.fontTitle (cfg.cx + 50) cfg.yTitle TEXT_COLOR 6 c.title).1

/-- Environment-only variant details step: always executes. -/
def details_step_env (cfg : Cfg) (c : Content) : List DrawOp :=
  (draw_centered_multiline cfg.fontBody (cfg.cx + 50) cfg.yDetails TEXT_COLOR 14 c.details).1

/-- Environment-only variant message step: always executes. -/
def message_step_env (cfg : Cfg) (c : Content) : List DrawOp :=
  (draw_centered_multiline cfg.fontSmall (cfg.cx + 50) cfg.yMessage TEXT_COLOR 14 c.message).1

/-- Environment-only variant signature step: always executes. -/
def sign_step_env (cfg : Cfg) (c : Content) : List DrawOp :=
  (draw_centered_multiline cfg.fontBody (cfg.cx + 50) cfg.ySign TEXT_COLOR 12 c.sign).1

/-- Environment-only variant RSVP step: always executes. -/
def rsvp_step_env (cfg : Cfg) (c : Content) : List DrawOp :=
  (draw_centered_multiline cfg.fontRsvp (cfg.cx + 50) cfg.yRsvp TEXT_COLOR 10 c.rsvp).1

/-- The small divider pair (small-divider style). -/
def small_divider_step (cfg : Cfg) : List DrawOp :=
  draw_divider_pair (cfg.cx + 50) cfg.smallWidth cfg.smallColor cfg.smallThickness
    cfg.smallHookChar cfg.fontHook cfg.smallHookGap cfg.smallY1 cfg.smallY2

/-- The divider pair after details (global style). -/
def details_divider_step (cfg : Cfg) : List DrawOp :=
  draw_divider_pair (cfg.cx + 50) cfg.lineWidth cfg.lineColor cfg.lineThickness
    cfg.hookChar cfg.fontHook cfg.hookGap cfg.detailsY1 cfg.detailsY2

/-- The divider pair after the message (global style). -/
def message_divider_step (cfg : Cfg) : List DrawOp :=
  draw_divider_pair (cfg.cx + 50) cfg.lineWidth cfg.lineColor cfg.lineThickness
    cfg.hookChar cfg.fontHook cfg.hookGap cfg.messageY1 cfg.messageY2

/-- The drawing trace of the JSON-driven build section, steps in source
order. -/
def build_json (cfg : Cfg) (c : Content) : List DrawOp :=
  intro_step_json cfg c ++ title_step_json cfg c ++ small_divider_step cfg ++
  details_step_json cfg c ++ details_divider_step cfg ++ message_step_json cfg c ++
  message_divider_step cfg ++ sign_step_json cfg c ++ rsvp_step_json cfg c

/-- The drawing trace of the environment-only build section, steps in source
order. -/
def build_env (cfg : Cfg) (c : Content) : List DrawOp :=
  intro_step_env cfg c ++ title_step_env cfg c ++ small_divider_step cfg ++
  details_step_env cfg c ++ details_divider_step cfg ++ message_step_env cfg c ++
  message_divider_step cfg ++ sign_step_env cfg c ++ rsvp_step_env cfg c

/-! ### The JSON-driven entry point (main) -/

/-- The ambient world of the process: environment, filesystem, image and
JSON decoding, font loading (`none` models the named operation raising). -/
structure World where
  env : Env
  fileExists : String → Bool
  openImage : String → Option Image
  readJson : String → Option JValue
  loadFont : String → Int → Option Font
  defaultFont : Font

/-- `read_invitation_json`: decode the file (any IO/JSON failure raises) and
require a JSON object. -/
def read_invitation_json (w : World) (path : String) : Except PyErr JDict :=
  match w.readJson path with
  | none => .error .ioError
  | some (.obj kvs) => .ok kvs
  | some _ => .error .valueError

/-- `load_font`: `ImageFont.truetype`, falling back to the default font when
loading fails. -/
def load_font (w : World) (path : String) (size : Int) : Font :=
  (w.loadFont path size).getD w.defaultFont

/-- The output of a successful run: the path written and the final canvas
with its drawing trace. -/
structure OutFile where
  path : String
  img : Image
  ops : List DrawOp

/-- The part of `main` after the early-exit checks: resolve configuration,
read the document, build, and save.  Any `Except` failure models an uncaught
exception. -/
def main_rest (w : World) (json_path output_path : String) : Except PyErr OutFile := do
  let TEMPLATE := env_str w.env "TEMPLATE_IMAGE" ""
  let DPI ← env_int w.env "DPI" 300
  let FONT_TITLE_PATH := env_str w.env "FONT_TITLE" ""
  let FONT_BODY_PATH := env_str w.env "FONT_BODY" ""
  let FONT_HOOK_PATH := env_str w.env "FONT_HOOK" FONT_BODY_PATH
  let TITLE_SIZE ← env_int w.env "TITLE_SIZE" 120
  let BODY_SIZE ← env_int w.env "BODY_SIZE" 52
  let SMALL_SIZE ← env_int w.env "SMALL_SIZE" 44
  let HOOK_SIZE ← env_int w.env "HOOK_SIZE" 34
  let RSVP_SIZE ← env_int w.env "RSVP_SIZE" BODY_SIZE
  let Y_INTRO ← env_int w.env "Y_INTRO" 780
  let Y_TITLE ← env_int w.env "Y_TITLE" 900
  let Y_DETAILS ← env_int w.env "Y_DETAILS" 1320
  let Y_MESSAGE ← env_int w.env "Y_MESSAGE" 1840
  let Y_SIGN ← env_int w.env "Y_SIGN" 2320
  let Y_RSVP ← env_int w.env "Y_RSVP" 3000
  let LINE_WIDTH ← env_int w.env "LINE_WIDTH" 900
  let LINE_THICKNESS ← env_int w.env "LINE_THICKNESS" 2
  let LINE_COLOR ← env_color w.env "LINE_COLOR" "180,180,180"
  let HOOK_GAP ← env_int w.env "HOOK_GAP" 22
  let HOOK_CHAR := env_str w.env "HOOK_CHAR" "❦"
  let DETAILS_1 ← env_int_opt w.env "DETAILS_DIVIDER_LINE_1_Y"
  let DETAILS_2 ← env_int_opt w.env "DETAILS_DIVIDER_LINE_2_Y"
  let MESSAGE_1 ← env_int_opt w.env "MESSAGE_DIVIDER_LINE_1_Y"
  let MESSAGE_2 ← env_int_opt w.env "MESSAGE_DIVIDER_LINE_2_Y"
  let SMALL_WIDTH ← env_int w.env "SMALL_DIVIDER_WIDTH" 150
  let SMALL_1 ← env_int_opt w.env "SMALL_DIVIDER_LINE_1_Y"
  let SMALL_2 ← env_int_opt w.env "SMALL_DIVIDER_LINE_2_Y"
  let SMALL_THICKNESS ← env_int w.env "SMALL_DIVIDER_THICKNESS" LINE_THICKNESS
  let SMALL_COLOR ← env_color w.env "SMALL_DIVIDER_COLOR" "180,180,180"
  let SMALL_HOOK_GAP ← env_int w.env "SMALL_DIVIDER_HOOK_GAP" HOOK_GAP
  let SMALL_HOOK_CHAR := env_str w.env "SMALL_DIVIDER_HOOK_CHAR" HOOK_CHAR
  let inv ← read_invitation_json w json_path
  let content ← json_content inv
  let img0 ←
    match w.openImage TEMPLATE with
    | some i => Except.ok i
    | none => Except.error PyErr.ioError
  let img := ensure_a4 img0 DPI
  let cx := Int.fdiv img.size.1 2
  let cfg : Cfg :=
    { cx := cx, yIntro := Y_INTRO, yTitle := Y_TITLE, yDetails := Y_DETAILS,
      yMessage := Y_MESSAGE, ySign := Y_SIGN, yRsvp := Y_RSVP,
      lineWidth := LINE_WIDTH, lineThickness := LINE_THICKNESS, lineColor := LINE_COLOR,
      hookGap := HOOK_GAP, hookChar := HOOK_CHAR,
      detailsY1 := DETAILS_1, detailsY2 := DETAILS_2,
      messageY1 := MESSAGE_1, messageY2 := MESSAGE_2,
      smallWidth := SMALL_WIDTH, smallY1 := SMALL_1, smallY2 := SMALL_2,
      smallThickness := SMALL_THICKNESS, smallColor := SMALL_COLOR,
      smallHookGap := SMALL_HOOK_GAP, smallHookChar := SMALL_HOOK_CHAR,
      fontTitle := load_font w FONT_TITLE_PATH TITLE_SIZE,
      fontBody := load_font w FONT_BODY_PATH BODY_SIZE,
      fontSmall := load_font w FONT_BODY_PATH SMALL_SIZE,
      fontHook := load_font w FONT_HOOK_PATH HOOK_SIZE,
      fontRsvp := load_font w FONT_BODY_PATH RSVP_SIZE }
  return { path := output_path, img := img, ops := build_json cfg content }

/-- `main(argv)`: exit code, together with the file written on success
(`none` on the early `return 2` paths).  An `Except.error` models an
uncaught exception (nonzero exit, no file written). -/
def main (w : World) (argv : List String) : Except PyErr (Int × Option OutFile) :=
  if argv.length < 2 then .ok (2, none)
  else
    let json_path := (argv.get? 1).getD ""
    let output_path :=
      if 3 ≤ argv.length then (argv.get? 2).getD ""
      else env_str w.env "OUTPUT_IMAGE" "invite.png"
    let TEMPLATE := env_str w.env "TEMPLATE_IMAGE" ""
    if TEMPLATE = "" ∨ w.fileExists TEMPLATE = false then .ok (2, none)
    else (main_rest w json_path output_path).map (fun o => ((0 : Int), some o))

/-! ### Concrete fixtures used by witnesses -/

/-- A font whose glyph probe always succeeds with a non-empty mask. -/
def testFont : Font :=
  { size := 10, getmask := fun _ => some (5, 7), bbox := fun _ => ⟨0, 2, 30, 12⟩ }

/-- A font whose glyph probe raises for every string. -/
def noGlyphFont : Font :=
  { size := 10, getmask := fun _ => none, bbox := fun _ => ⟨0, 2, 30, 12⟩ }

/-- A concrete layout configuration. -/
def testCfg : Cfg :=
  { cx := 1240, yIntro := 780, yTitle := 900, yDetails := 1320, yMessage := 1840,
    ySign := 2320, yRsvp := 3000, lineWidth := 900, lineThickness := 2,
    lineColor := (180, 180, 180, 255), hookGap := 22, hookChar := "*",
    detailsY1 := none, detailsY2 := none, messageY1 := none, messageY2 := none,
    smallWidth := 150, smallY1 := none, smallY2 := none, smallThickness := 2,
    smallColor := (180, 180, 180, 255), smallHookGap := 22, smallHookChar := "*",
    fontTitle := testFont, fontBody := testFont, fontSmall := testFont,
    fontHook := testFont, fontRsvp := testFont }

/-- A world with nothing configured and no files. -/
def testWorld : World :=
  { env := fun _ => none, fileExists := fun _ => false, openImage := fun _ => none,
    readJson := fun _ => none, loadFont := fun _ _ => none, defaultFont := testFont }

/-- Environment fixture for the C7 witness. -/
def env7 : Env := fun k => if k = "DPI" then some "0" else none

/-- Environment fixture for the C8 counterexample and witness. -/
def env8 : Env := fun k => if k = "LINE_COLOR" then some "1,2,3,x" else none

/-! ### C4: canvas dimensions -/

/-- C4: for every input image and positive DPI, `ensure_a4` returns an image
of exactly the A4 target dimensions `(round(8.27*dpi), round(11.69*dpi))`,
and when the input already has those dimensions it is returned unchanged
(no resample). -/
theorem ensure_a4_dims (img : Image) (dpi : Int) (_hdpi : 0 < dpi) :
    (ensure_a4 img dpi).size = a4_target dpi ∧
    (img.size = a4_target dpi → ensure_a4 img dpi = img) := by
  constructor
  · simp only [ensure_a4]
    by_cases h : img.size = a4_target dpi
    · rw [if_neg (not_not_intro h)]
      exact h
    · rw [if_pos h]
      rfl
  · intro h
    simp only [ensure_a4]
    rw [if_neg (not_not_intro h)]

/-- C4 witness: at DPI 300 the target is 2481 × 3507 and a template already
of that size is passed through unchanged. -/
theorem ensure_a4_dims_witness :
    ensure_a4 (Image.loaded (2481, 3507)) 300 = Image.loaded (2481, 3507) :=
  (ensure_a4_dims (Image.loaded (2481, 3507)) 300 (by decide)).2 (by decide)

/-! ### C7: optional integer configuration lookup -/

/-- C7: `env_int_opt` yields `None` exactly when the key is missing or its
value is blank; when the (stripped) value parses as an integer it yields
that integer; in particular `"0"` yields the integer 0, distinct from
`None`. -/
theorem env_int_opt_spec (env : Env) (key : String) :
    (env_int_opt env key = .ok none ↔
      env key = none ∨ ∃ v, env key = some v ∧ pyStripWs v = "") ∧
    (∀ v n, env key = some v → py_int_parse (pyStripWs v) = some n →
      env_int_opt env key = .ok (some n)) ∧
    (env key = some "0" → env_int_opt env key = .ok (some 0)) ∧
    (Except.ok (some (0 : Int)) ≠ (.ok none : Except PyErr (Option Int))) := by
  refine ⟨⟨?_, ?_⟩, ?_, ?_, by decide⟩
  · intro h
    cases he : env key with
    | none => exact Or.inl rfl
    | some v =>
      refine Or.inr ⟨v, rfl, ?_⟩
      by_cases hv : pyStripWs v = ""
      · exact hv
      · exfalso
        simp only [env_int_opt, he] at h
        rw [if_neg hv] at h
        cases hp : py_int_parse (pyStripWs v) <;> simp [hp] at h
  · intro h
    rcases h with h | ⟨v, hv, hs⟩
    · simp [env_int_opt, h]
    · simp [env_int_opt, hv, hs]
  · intro v n hv hp
    have hne : pyStripWs v ≠ "" := by
      intro h0
      rw [h0, show py_int_parse "" = (none : Option Int) from by decide] at hp
      exact Option.noConfusion hp
    simp only [env_int_opt, hv]
    rw [if_neg hne, hp]
  · intro h
    simp only [env_int_opt, h]
    rfl

/-- C7 witness: a key set to `"0"` yields the integer 0. -/
theorem env_int_opt_spec_witness : env_int_opt env7 "DPI" = .ok (some 0) :=
  (env_int_opt_spec env7 "DPI").2.2.1 (by rfl)

/-! ### C8: color parsing -/

/-- C8 amended: a value whose first three comma-separated components are
integers parses to `(r, g, b, 255)` with fixed alpha — components beyond
the third are ignored, even malformed ones; a value with fewer than three
components, or with a non-integer among the first three, raises a parse
error (no default is substituted). -/
theorem env_color_spec (env : Env) (key default : String) (a b c : String)
    (rest : List String) (ra rb rc : Int) :
    ((pySplit ',' ((env key).getD default)).map pyStripWs = a :: b :: c :: rest →
      ((py_int_parse a = some ra → py_int_parse b = some rb → py_int_parse c = some rc →
        env_color env key default = .ok (ra, rb, rc, 255)) ∧
       (py_int_parse a = none ∨ py_int_parse b = none ∨ py_int_parse c = none →
        env_color env key default = .error .valueError))) ∧
    (((pySplit ',' ((env key).getD default)).map pyStripWs).length < 3 →
      env_color env key default = .error .valueError) := by
  constructor
  · intro hp
    constructor
    · intro ha hb hc
      simp [env_color, hp, ha, hb, hc]
    · intro hbad
      rcases hbad with h | h | h
      · simp [env_color, hp, h]
      · cases hpa : py_int_parse a <;> simp [env_color, hp, hpa, h]
      · cases hpa : py_int_parse a <;> cases hpb : py_int_parse b <;>
          simp [env_color, hp, hpa, hpb, h]
  · intro hl
    rcases hL : (pySplit ',' ((env key).getD default)).map pyStripWs with
      _ | ⟨x, _ | ⟨y, _ | ⟨z, tl⟩⟩⟩
    · simp [env_color, hL]
    · simp [env_color, hL]
    · simp [env_color, hL]
    · rw [hL] at hl
      simp at hl
      omega

/-- C8 witness: `"1,2,3,x"` — the first three components parse, so the junk
fourth component is ignored and the color is `(1,2,3,255)`. -/
theorem env_color_spec_witness : env_color env8 "LINE_COLOR" "180,180,180" = .ok (1, 2, 3, 255) :=
  ((env_color_spec env8 "LINE_COLOR" "180,180,180" "1" "2" "3" ["x"] 1 2 3).1
    (by decide)).1 (by decide) (by decide) (by decide)

/-- C8 counterexample: the claim says a component that is not an integer
propagates a parse error, but `"1,2,3,x"` — whose fourth component is not an
integer — parses successfully to `(1,2,3,255)`. -/
theorem env_color_junk_component_ok :
    env_color env8 "LINE_COLOR" "180,180,180" = .ok (1, 2, 3, 255) ∧
    py_int_parse "x" = none := by
  decide

/-! ### C5: glyph fallback in the divider renderer -/

/-- C5: when the configured font rasterizes the requested ornament to a
zero-sized mask, or the probe raises, the ornament actually drawn is the
fallback bullet `"•"`; the renderer is a total function of its arguments,
so no exception propagates and the substitution is deterministic. -/
theorem hook_fallback (center_x y width : Int) (color : Color) (thickness : Int)
    (hook_char : String) (hook_font : Font) (hook_gap : Int)
    (h : hook_font.getmask hook_char = none ∨ hook_font.getmask hook_char = some (0, 0)) :
    textStrings (draw_hook_divider center_x y width color thickness hook_char hook_font hook_gap)
      = ["•"] := by
  rcases h with h | h <;>
    simp [draw_hook_divider, textStrings, h]

/-- C5 witness: a font whose probe raises on every glyph still renders the
bullet ornament. -/
theorem hook_fallback_witness :
    textStrings (draw_hook_divider 100 50 200 (1, 2, 3, 255) 2 "❦" noGlyphFont 22) = ["•"] :=
  hook_fallback 100 50 200 (1, 2, 3, 255) 2 "❦" noGlyphFont 22 (Or.inl rfl)

/-! ### C1: divider pairs -/

/-- Each hook divider contributes exactly two `draw.line` segments (one rule
split around the ornament gap). -/
lemma hook_divider_segments (center_x y width : Int) (color : Color) (thickness : Int)
    (hook_char : String) (hook_font : Font) (hook_gap : Int) :
    ((draw_hook_divider center_x y width color thickness hook_char hook_font hook_gap).filter
      DrawOp.isLine).length = 2 := by
  simp [draw_hook_divider, DrawOp.isLine]

/-- C1 amended: the two optional Y-coordinates independently control the two
rules — both absent draws nothing; each present Y draws exactly one rule at
that Y (so only the first present: one rule; only the second present: one
rule, the pair is NOT suppressed; both present: two rules). -/
theorem draw_divider_pair_spec (center_x width : Int) (color : Color) (thickness : Int)
    (hook_char : String) (hook_font : Font) (hook_gap : Int) (a b : Int) :
    draw_divider_pair center_x width color thickness hook_char hook_font hook_gap
      none none = [] ∧
    draw_divider_pair center_x width color thickness hook_char hook_font hook_gap
      (some a) none
      = draw_hook_divider center_x a width color thickness hook_char hook_font hook_gap ∧
    draw_divider_pair center_x width color thickness hook_char hook_font hook_gap
      none (some b)
      = draw_hook_divider center_x b width color thickness hook_char hook_font hook_gap ∧
    draw_divider_pair center_x width color thickness hook_char hook_font hook_gap
      (some a) (some b)
      = draw_hook_divider center_x a width color thickness hook_char hook_font hook_gap
        ++ draw_hook_divider center_x b width color thickness hook_char hook_font hook_gap ∧
    ruleCount (draw_divider_pair center_x width color thickness hook_char hook_font hook_gap
      none none) = 0 ∧
    ruleCount (draw_divider_pair center_x width color thickness hook_char hook_font hook_gap
      (some a) none) = 1 ∧
    ruleCount (draw_divider_pair center_x width color thickness hook_char hook_font hook_gap
      none (some b)) = 1 ∧
    ruleCount (draw_divider_pair center_x width color thickness hook_char hook_font hook_gap
      (some a) (some b)) = 2 := by
  refine ⟨rfl, by simp [draw_divider_pair], rfl, rfl, ?_, ?_, ?_, ?_⟩ <;>
    simp [ruleCount, draw_divider_pair, List.filter_append, hook_divider_segments]

/-- C1 counterexample: with the first Y absent and the second present, the
pair is not suppressed — one rule (two line segments) is still drawn. -/
theorem divider_pair_second_only_draws :
    draw_divider_pair 100 200 (1, 2, 3, 255) 2 "*" testFont 22 none (some 400) ≠ [] ∧
    ruleCount (draw_divider_pair 100 200 (1, 2, 3, 255) 2 "*" testFont 22 none (some 400))
      = 1 := by
  decide

/-! ### C2: content field access -/

/-- C2 amended: for a content field read through `get_optional` with default
`""`: an absent field yields `""` and is not an error; a present JSON `null`
also yields `""` without error; a present string yields itself; any other
present value (neither a string nor `null`) aborts with a `TypeError`. -/
theorem get_optional_spec (d : JDict) (key : String) (s : String) (v : JValue) :
    (d.get key = none → get_optional d key "" = .ok "") ∧
    (d.get key = some JValue.null → get_optional d key "" = .ok "") ∧
    (d.get key = some (JValue.str s) → get_optional d key "" = .ok s) ∧
    (d.get key = some v → v.isString = false → v ≠ JValue.null →
      get_optional d key "" = .error .typeError) := by
  refine ⟨?_, ?_, ?_, ?_⟩
  · intro h
    simp [get_optional, h]
  · intro h
    simp [get_optional, h]
  · intro h
    simp [get_optional, h]
  · intro h hs hn
    cases v with
    | str t => simp [JValue.isString] at hs
    | null => exact absurd rfl hn
    | num n => simp [get_optional, h]
    | bool b => simp [get_optional, h]
    | arr xs => simp [get_optional, h]
    | obj kvs => simp [get_optional, h]

/-- C2 witness: a numeric field value is a fatal type error. -/
theorem get_optional_spec_witness :
    get_optional [("INTRO_TEXT", JValue.num 3)] "INTRO_TEXT" "" = .error .typeError :=
  (get_optional_spec [("INTRO_TEXT", JValue.num 3)] "INTRO_TEXT" "" (JValue.num 3)).2.2.2
    rfl rfl (fun h => JValue.noConfusion h)

/-- C2 counterexample: a present field whose value is JSON `null` is not a
string, yet the render does not abort — the field is treated as `""`. -/
theorem get_optional_null_not_error :
    get_optional [("INTRO_TEXT", JValue.null)] "INTRO_TEXT" "" = .ok "" ∧
    JValue.isString JValue.null = false :=
  ⟨rfl, rfl⟩

/-! ### C3: the text block renderer -/

/-- A `draw.text` call contributes its string to the trace. -/
lemma textStrings_cons_text (pos : Int × Int) (s : String) (fill : Color) (ops : List DrawOp) :
    textStrings (.text pos s fill :: ops) = s :: textStrings ops := rfl

/-- Loop invariant of `drawLines`: the drawn strings are exactly the
non-blank lines in order, and the cursor ends at the start plus the sum of
every line's advance. -/
lemma drawLines_spec (font : Font) (center_x : Int) (fill : Color) (sp : Int) :
    ∀ (ls : List String) (y : Int),
      textStrings (drawLines font center_x fill sp ls y).1
        = ls.filter (fun l => !pyIsBlank l) ∧
      (drawLines font center_x fill sp ls y).1.length
        = (ls.filter (fun l => !pyIsBlank l)).length ∧
      (drawLines font center_x fill sp ls y).2
        = y + (ls.map (lineAdvance font sp)).sum := by
  intro ls
  induction ls with
  | nil => intro y; simp [drawLines, textStrings]
  | cons l rest ih =>
    intro y
    by_cases hb : pyIsBlank l
    · have h := ih (y + (font.size + sp))
      simp [drawLines, hb, lineAdvance, h.1, h.2.1, h.2.2, add_assoc]
    · have h := ih (y + (bboxH font l + sp))
      simp [drawLines, hb, lineAdvance, textStrings_cons_text, h.1, h.2.1, h.2.2, add_assoc]

/-- C3: for every input string, the renderer processes exactly the segments
of the split on `"\n"` (empty segments included): the drawn strings are the
non-blank segments in order; every blank segment contributes
`font.size + line_spacing_px` to the cursor and no drawing; every non-blank
segment contributes its bbox height plus the spacing; and the returned value
is the final cursor position, the anchor plus the sum of all advances. -/
theorem draw_centered_multiline_spec (font : Font) (center_x top_y : Int) (fill : Color)
    (line_spacing_px : Int) (text : String) :
    textStrings (draw_centered_multiline font center_x top_y fill line_spacing_px text).1
      = (pySplit '\n' text).filter (fun l => !pyIsBlank l) ∧
    (draw_centered_multiline font center_x top_y fill line_spacing_px text).1.length
      = ((pySplit '\n' text).filter (fun l => !pyIsBlank l)).length ∧
    (draw_centered_multiline font center_x top_y fill line_spacing_px text).2
      = top_y + ((pySplit '\n' text).map (lineAdvance font line_spacing_px)).sum :=
  drawLines_spec font center_x fill line_spacing_px (pySplit '\n' text) top_y

/-! ### C6: empty-content policy of the two drivers -/

/-- Rendering the empty string draws nothing and advances the cursor once. -/
lemma dcm_empty (font : Font) (cx y : Int) (fill : Color) (sp : Int) :
    draw_centered_multiline font cx y fill sp "" = ([], y + (font.size + sp)) := rfl

/-- Rendering `"\n"` (two empty segments) draws nothing and advances the
cursor twice. -/
lemma dcm_nl (font : Font) (cx y : Int) (fill : Color) (sp : Int) :
    draw_centered_multiline font cx y fill sp "\n"
      = ([], y + (font.size + sp) + (font.size + sp)) := rfl

/-- Rendering `"\n\n"` (three empty segments) draws nothing and advances the
cursor three times. -/
lemma dcm_2nl (font : Font) (cx y : Int) (fill : Color) (sp : Int) :
    draw_centered_multiline font cx y fill sp "\n\n"
      = ([], y + (font.size + sp) + (font.size + sp) + (font.size + sp)) := rfl

/-- C6: in the JSON-driven variant every text step whose resolved content is
empty is skipped entirely (no drawing operation); in the environment-only
variant every text step unconditionally runs the renderer, and with the
content absent from the environment (`INTRO`/`RSVP` empty, the joined blocks
`"\n"` or `"\n\n"`), each step draws nothing but still advances the vertical
cursor past its anchor by one nominal line height per blank segment. -/
theorem step_empty_policy (cfg : Cfg) (c : Content) :
    (c.intro = "" → intro_step_json cfg c = []) ∧
    (c.title = "" → title_step_json cfg c = []) ∧
    (c.details = "" → details_step_json cfg c = []) ∧
    (c.message = "" → message_step_json cfg c = []) ∧
    (c.sign = "" → sign_step_json cfg c = []) ∧
    (c.rsvp = "" → rsvp_step_json cfg c = []) ∧
    (intro_step_env cfg c
      = (draw_centered_multiline cfg.fontSmall (cfg.cx + 50) cfg.yIntro TEXT_COLOR 10 c.intro).1) ∧
    (title_step_env cfg c
      = (draw_centered_multiline cfg.fontTitle (cfg.cx + 50) cfg.yTitle TEXT_COLOR 6 c.title).1) ∧
    (details_step_env cfg c
      = (draw_centered_multiline cfg.fontBody (cfg.cx + 50) cfg.yDetails TEXT_COLOR 14 c.details).1) ∧
    (message_step_env cfg c
      = (draw_centered_multiline cfg.fontSmall (cfg.cx + 50) cfg.yMessage TEXT_COLOR 14 c.message).1) ∧
    (sign_step_env cfg c
      = (draw_centered_multiline cfg.fontBody (cfg.cx + 50) cfg.ySign TEXT_COLOR 12 c.sign).1) ∧
    (rsvp_step_env cfg c
      = (draw_centered_multiline cfg.fontRsvp (cfg.cx + 50) cfg.yRsvp TEXT_COLOR 10 c.rsvp).1) ∧
    (env_content (fun _ => none)
      = { intro := "", title := "\n", details := "\n\n", message := "\n", sign := "\n",
          rsvp := "" }) ∧
    (c.intro = "" →
      intro_step_env cfg c = [] ∧
      (draw_centered_multiline cfg.fontSmall (cfg.cx + 50) cfg.yIntro TEXT_COLOR 10 c.intro).2
        = cfg.yIntro + (cfg.fontSmall.size + 10)) ∧
    (c.title = "\n" →
      title_step_env cfg c = [] ∧
      (draw_centered_multiline cfg.fontTitle (cfg.cx + 50) cfg.yTitle TEXT_COLOR 6 c.title).2
        = cfg.yTitle + (cfg.fontTitle.size + 6) + (cfg.fontTitle.size + 6)) ∧
    (c.details = "\n\n" →
      details_step_env cfg c = [] ∧
      (draw_centered_multiline cfg.fontBody (cfg.cx + 50) cfg.yDetails TEXT_COLOR 14 c.details).2
        = cfg.yDetails + (cfg.fontBody.size + 14) + (cfg.fontBody.size + 14)
          + (cfg.fontBody.size + 14)) ∧
    (c.message = "\n" →
      message_step_env cfg c = [] ∧
      (draw_centered_multiline cfg.fontSmall (cfg.cx + 50) cfg.yMessage TEXT_COLOR 14 c.message).2
        = cfg.yMessage + (cfg.fontSmall.size + 14) + (cfg.fontSmall.size + 14)) ∧
    (c.sign = "\n" →
      sign_step_env cfg c = [] ∧
      (draw_centered_multiline cfg.fontBody (cfg.cx + 50) cfg.ySign TEXT_COLOR 12 c.sign).2
        = cfg.ySign + (cfg.fontBody.size + 12) + (cfg.fontBody.size + 12)) ∧
    (c.rsvp = "" →
      rsvp_step_env cfg c = [] ∧
      (draw_centered_multiline cfg.fontRsvp (cfg.cx + 50) cfg.yRsvp TEXT_COLOR 10 c.rsvp).2
        = cfg.yRsvp + (cfg.fontRsvp.size + 10)) := by
  refine ⟨fun h => by simp [intro_step_json, h], fun h => by simp [title_step_json, h],
    fun h => by simp [details_step_json, h], fun h => by simp [message_step_json, h],
    fun h => by simp [sign_step_json, h], fun h => by simp [rsvp_step_json, h],
    rfl, rfl, rfl, rfl, rfl, rfl, rfl,
    fun h => ⟨by simp [intro_step_env, h, dcm_empty], by rw [h, dcm_empty]⟩,
    fun h => ⟨by simp [title_step_env, h, dcm_nl], by rw [h, dcm_nl]⟩,
    fun h => ⟨by simp [details_step_env, h, dcm_2nl], by rw [h, dcm_2nl]⟩,
    fun h => ⟨by simp [message_step_env, h, dcm_nl], by rw [h, dcm_nl]⟩,
    fun h => ⟨by simp [sign_step_env, h, dcm_nl], by rw [h, dcm_nl]⟩,
    fun h => ⟨by simp [rsvp_step_env, h, dcm_empty], by rw [h, dcm_empty]⟩⟩

/-- C6 witness: with all content absent from the environment, the JSON
variant skips the intro step, while the environment variant runs the title
step, drawing nothing but advancing the cursor two line heights past the
title anchor. -/
theorem step_empty_policy_witness :
    intro_step_json testCfg (env_content (fun _ => none)) = [] ∧
    title_step_env testCfg (env_content (fun _ => none)) = [] ∧
    (draw_centered_multiline testCfg.fontTitle (testCfg.cx + 50) testCfg.yTitle TEXT_COLOR 6
      (env_content (fun _ => none)).title).2
      = testCfg.yTitle + (testCfg.fontTitle.size + 6) + (testCfg.fontTitle.size + 6) := by
  obtain ⟨a1, a2, a3, a4, a5, a6, b1, b2, b3, b4, b5, b6, hc, e1, e2, e3, e4, e5, e6⟩ :=
    step_empty_policy testCfg (env_content (fun _ => none))
  exact ⟨a1 rfl, (e2 rfl).1, (e2 rfl).2⟩

/-! ### C9: exit behavior of the JSON-driven entry point -/

/-- Inversion for `Except.map`: a mapped computation is `ok` only when the
original one was. -/
lemma except_map_ok {ε α β : Type} (f : α → β) (e : Except ε α) (b : β)
    (h : e.map f = .ok b) : ∃ a, e = .ok a ∧ b = f a := by
  cases e with
  | error err => simp [Except.map] at h
  | ok a => exact ⟨a, rfl, by simpa [Except.map] using h.symm⟩

/-- C9: with no document path argument, or with the template image path
unset or nonexistent, `main` returns exit status 2 without writing any
output file; and whenever `main` returns normally the status is 0 with an
output file written, or 2 with none (an uncaught exception, the `.error`
case, also writes nothing). -/
theorem main_exit_codes (w : World) (argv : List String) :
    (argv.length < 2 → main w argv = .ok (2, none)) ∧
    (2 ≤ argv.length →
      (env_str w.env "TEMPLATE_IMAGE" "" = "" ∨
        w.fileExists (env_str w.env "TEMPLATE_IMAGE" "") = false) →
      main w argv = .ok (2, none)) ∧
    (∀ code out, main w argv = .ok (code, out) →
      (code = 0 ∧ out ≠ none) ∨ (code = 2 ∧ out = none)) := by
  refine ⟨?_, ?_, ?_⟩
  · intro h
    simp [main, h]
  · intro hlen hbad
    have hnl : ¬ argv.length < 2 := by omega
    simp only [main, if_neg hnl]
    rw [if_pos hbad]
  · intro code out h
    by_cases hl : argv.length < 2
    · simp only [main, if_pos hl, Except.ok.injEq, Prod.mk.injEq] at h
      exact Or.inr ⟨h.1.symm, h.2.symm⟩
    · by_cases hbad : env_str w.env "TEMPLATE_IMAGE" "" = "" ∨
        w.fileExists (env_str w.env "TEMPLATE_IMAGE" "") = false
      · simp only [main, if_neg hl] at h
        rw [if_pos hbad] at h
        simp only [Except.ok.injEq, Prod.mk.injEq] at h
        exact Or.inr ⟨h.1.symm, h.2.symm⟩
      · simp only [main, if_neg hl] at h
        rw [if_neg hbad] at h
        obtain ⟨o, _, hb⟩ := except_map_ok _ _ _ h
        simp only [Prod.mk.injEq] at hb
        exact Or.inl ⟨hb.1, by simp [hb.2]⟩

/-- C9 witness: no document path, and a present path with the template
unset, both exit with status 2 and no file written. -/
theorem main_exit_codes_witness :
    main testWorld [] = .ok (2, none) ∧
    main testWorld ["make_invite.py", "doc.json"] = .ok (2, none) :=
  ⟨(main_exit_codes testWorld []).1 (by decide),
   (main_exit_codes testWorld ["make_invite.py", "doc.json"]).2.1 (by decide) (Or.inl rfl)⟩

/-! ### C10: assembly of multi-line blocks (join + strip of newlines) -/

/-- A non-blank string has a nonempty character list. -/
lemma nonblank_ne_nil (s : String) (h : pyIsBlank s = false) : s.data ≠ [] := by
  intro h0
  unfold pyIsBlank at h
  rw [h0] at h
  simp at h

/-- A string with a nonempty character list is not `""`. -/
lemma ne_empty_of_data_ne_nil {s : String} (h : s.data ≠ []) : s ≠ "" :=
  fun e => h (by rw [e])

/-- A nonempty list in back-concatenation form. -/
lemma exists_concat_of_ne_nil {l : List Char} (h : l ≠ []) : ∃ init z, l = init ++ [z] := by
  rcases List.eq_nil_or_concat l with h0 | ⟨init, z, hz⟩
  · exact absurd h0 h
  · exact ⟨init, z, by simpa [List.concat_eq_append] using hz⟩

/-- `splitChAux` on a list avoiding the separator: one segment. -/
lemma splitChAux_not_mem (c : Char) (l : List Char) (h : c ∉ l) :
    splitChAux c l = (l, []) := by
  induction l with
  | nil => rfl
  | cons x xs ih =>
    have hx : ¬ x = c := by
      rintro rfl
      exact h (List.mem_cons_self x xs)
    have hr := ih (fun hm => h (List.mem_cons_of_mem x hm))
    simp [splitChAux, hx, hr]

/-- `splitChAux` past a separator-free prefix. -/
lemma splitChAux_append_not_mem (c : Char) (l1 l2 : List Char) (h : c ∉ l1) :
    splitChAux c (l1 ++ l2) = (l1 ++ (splitChAux c l2).1, (splitChAux c l2).2) := by
  induction l1 with
  | nil => simp
  | cons x xs ih =>
    have hx : ¬ x = c := by
      rintro rfl
      exact h (List.mem_cons_self x xs)
    have hr := ih (fun hm => h (List.mem_cons_of_mem x hm))
    simp [splitChAux, hx, hr]

/-- `splitChAux` at a leading separator. -/
lemma splitChAux_cons_self (c : Char) (l : List Char) :
    splitChAux c (c :: l) = ([], (splitChAux c l).1 :: (splitChAux c l).2) := by
  simp [splitChAux]

/-- Stripping is the identity when both ends resist the predicate. -/
lemma pyStripChars_sandwich (p : Char → Bool) (x : Char) (mid : List Char) (z : Char)
    (hx : p x = false) (hz : p z = false) (s : String)
    (hs : s.data = x :: (mid ++ [z])) :
    pyStripChars p s = s := by
  unfold pyStripChars
  rw [hs]
  simp [List.dropWhile_cons, hx, hz]
  exact String.ext hs.symm

/-- Stripping drops a single leading matching character when the rest of the
string resists the predicate at both ends. -/
lemma pyStripChars_drop_one (p : Char → Bool) (a x : Char) (mid : List Char) (z : Char)
    (ha : p a = true) (hx : p x = false) (hz : p z = false) (s : String)
    (hs : s.data = a :: x :: (mid ++ [z])) :
    pyStripChars p s = String.mk (x :: (mid ++ [z])) := by
  unfold pyStripChars
  rw [hs]
  simp [List.dropWhile_cons, ha, hx, hz]

/-- Splitting a string of the form `A\n\nB` (no newline inside `A`, `B`)
yields the three segments, the middle one empty. -/
lemma pySplit_sandwich (s A B : String)
    (hs : s.data = A.data ++ '\n' :: '\n' :: B.data)
    (hA : '\n' ∉ A.data) (hB : '\n' ∉ B.data) :
    pySplit '\n' s = [A, "", B] := by
  unfold pySplit
  rw [hs, splitChAux_append_not_mem '\n' A.data _ hA, splitChAux_cons_self,
      splitChAux_cons_self, splitChAux_not_mem '\n' B.data hB]
  simp

/-- Splitting a string of the form `A\nB` (no newline inside `A`, `B`)
yields the two segments. -/
lemma pySplit_one_sep (s A B : String)
    (hs : s.data = A.data ++ '\n' :: B.data)
    (hA : '\n' ∉ A.data) (hB : '\n' ∉ B.data) :
    pySplit '\n' s = [A, B] := by
  unfold pySplit
  rw [hs, splitChAux_append_not_mem '\n' A.data _ hA, splitChAux_cons_self,
      splitChAux_not_mem '\n' B.data hB]
  simp

/-- C10: the details block is joined with newlines and stripped only of
leading/trailing newlines.  With `DETAIL_LINE_2` empty between two non-empty
neighbours, the interior blank segment is preserved: the second drawn line
is pushed down by an extra nominal line height (`font.size + 14`) beyond the
first line's advance.  With `DETAIL_LINE_1` empty, the leading blank is
stripped, so the first drawn line sits exactly at the details anchor. -/
theorem details_block_layout (cfg : Cfg) (d1 d2 d3 : String)
    (hb1 : pyIsBlank d1 = false) (hn1 : '\n' ∉ d1.data)
    (hb2 : pyIsBlank d2 = false) (hn2 : '\n' ∉ d2.data)
    (hb3 : pyIsBlank d3 = false) (hn3 : '\n' ∉ d3.data) :
    details_step_json cfg ⟨"", "", details_json d1 "" d3, "", "", ""⟩
      = [DrawOp.text (cfg.cx + 50 - Int.fdiv (bboxW cfg.fontBody d1) 2, cfg.yDetails) d1
           TEXT_COLOR,
         DrawOp.text (cfg.cx + 50 - Int.fdiv (bboxW cfg.fontBody d3) 2,
           cfg.yDetails + (bboxH cfg.fontBody d1 + 14) + (cfg.fontBody.size + 14)) d3
           TEXT_COLOR] ∧
    details_step_json cfg ⟨"", "", details_json "" d2 d3, "", "", ""⟩
      = [DrawOp.text (cfg.cx + 50 - Int.fdiv (bboxW cfg.fontBody d2) 2, cfg.yDetails) d2
           TEXT_COLOR,
         DrawOp.text (cfg.cx + 50 - Int.fdiv (bboxW cfg.fontBody d3) 2,
           cfg.yDetails + (bboxH cfg.fontBody d2 + 14)) d3 TEXT_COLOR] := by
  obtain ⟨x, xs, hx⟩ := List.exists_cons_of_ne_nil (nonblank_ne_nil d1 hb1)
  obtain ⟨x2, xs2, hx2⟩ := List.exists_cons_of_ne_nil (nonblank_ne_nil d2 hb2)
  obtain ⟨init, z, hz⟩ := exists_concat_of_ne_nil (nonblank_ne_nil d3 hb3)
  have hxmem : x ∈ d1.data := by rw [hx]; simp
  have hxne : x ≠ '\n' := fun e => hn1 (e ▸ hxmem)
  have hx2mem : x2 ∈ d2.data := by rw [hx2]; simp
  have hx2ne : x2 ≠ '\n' := fun e => hn2 (e ▸ hx2mem)
  have hzmem : z ∈ d3.data := by rw [hz]; simp
  have hzne : z ≠ '\n' := fun e => hn3 (e ▸ hzmem)
  have hnl : "\n".data = ['\n'] := rfl
  have hemp : "".data = ([] : List Char) := rfl
  constructor
  · have hT1 : (d1 ++ "\n" ++ "" ++ "\n" ++ d3).data = d1.data ++ '\n' :: '\n' :: d3.data := by
      simp [String.data_append, hnl, hemp]
    have hs1 : (d1 ++ "\n" ++ "" ++ "\n" ++ d3).data
        = x :: ((xs ++ '\n' :: '\n' :: init) ++ [z]) := by
      rw [hT1, hx, hz]
      simp
    have key1 : details_json d1 "" d3 = d1 ++ "\n" ++ "" ++ "\n" ++ d3 := by
      unfold details_json pyStripNl
      exact pyStripChars_sandwich _ x (xs ++ '\n' :: '\n' :: init) z
        (by simp [hxne]) (by simp [hzne]) _ hs1
    have hsplit1 : pySplit '\n' (details_json d1 "" d3) = [d1, "", d3] := by
      rw [key1]
      exact pySplit_sandwich _ d1 d3 hT1 hn1 hn3
    have hne1 : details_json d1 "" d3 ≠ "" := by
      apply ne_empty_of_data_ne_nil
      rw [key1, hT1, hx]
      simp
    simp only [details_step_json]
    rw [if_neg hne1]
    unfold draw_centered_multiline
    rw [hsplit1]
    simp [drawLines, hb1, hb3, show pyIsBlank "" = true from rfl]
  · have hT2 : ("" ++ "\n" ++ d2 ++ "\n" ++ d3).data = '\n' :: (d2.data ++ '\n' :: d3.data) := by
      simp [String.data_append, hnl, hemp]
    have hs2 : ("" ++ "\n" ++ d2 ++ "\n" ++ d3).data
        = '\n' :: x2 :: ((xs2 ++ '\n' :: init) ++ [z]) := by
      rw [hT2, hx2, hz]
      simp
    have key2 : details_json "" d2 d3 = String.mk (x2 :: ((xs2 ++ '\n' :: init) ++ [z])) := by
      unfold details_json pyStripNl
      exact pyStripChars_drop_one _ '\n' x2 (xs2 ++ '\n' :: init) z
        (by simp) (by simp [hx2ne]) (by simp [hzne]) _ hs2
    have hdata2 : (String.mk (x2 :: ((xs2 ++ '\n' :: init) ++ [z]))).data
        = d2.data ++ '\n' :: d3.data := by
      rw [hx2, hz]
      simp
    have hsplit2 : pySplit '\n' (details_json "" d2 d3) = [d2, d3] := by
      rw [key2]
      exact pySplit_one_sep _ d2 d3 hdata2 hn2 hn3
    have hne2 : details_json "" d2 d3 ≠ "" := by
      apply ne_empty_of_data_ne_nil
      rw [key2]
      simp
    simp only [details_step_json]
    rw [if_neg hne2]
    unfold draw_centered_multiline
    rw [hsplit2]
    simp [drawLines, hb2, hb3]

/-- C10 witness: with detail lines `"A"`, (empty), `"C"` the interior blank
advances the second drawn line an extra line height; with (empty), `"B"`,
`"C"` the first drawn line sits exactly at the details anchor. -/
theorem details_block_layout_witness :
    details_step_json testCfg ⟨"", "", details_json "A" "" "C", "", "", ""⟩
      = [DrawOp.text (testCfg.cx + 50 - Int.fdiv (bboxW testCfg.fontBody "A") 2,
           testCfg.yDetails) "A" TEXT_COLOR,
         DrawOp.text (testCfg.cx + 50 - Int.fdiv (bboxW testCfg.fontBody "C") 2,
           testCfg.yDetails + (bboxH testCfg.fontBody "A" + 14)
             + (testCfg.fontBody.size + 14)) "C" TEXT_COLOR] ∧
    details_step_json testCfg ⟨"", "", details_json "" "B" "C", "", "", ""⟩
      = [DrawOp.text (testCfg.cx + 50 - Int.fdiv (bboxW testCfg.fontBody "B") 2,
           testCfg.yDetails) "B" TEXT_COLOR,
         DrawOp.text (testCfg.cx + 50 - Int.fdiv (bboxW testCfg.fontBody "C") 2,
           testCfg.yDetails + (bboxH testCfg.fontBody "B" + 14)) "C" TEXT_COLOR] :=
  details_block_layout testCfg "A" "B" "C" (by decide) (by decide) (by decide) (by decide)
    (by decide) (by decide)

end Invite
